import Mathlib

/-!
Verification of the `mlrun-datastore-influx` plugin against its
natural-language specification.

The development shallowly embeds the plugin's pure logic:
* URI/key parsing and query-string handling (`parseKey`, `parse_qs`),
  following `mlrun_influx_store/datastore.py` (`InfluxStore.get`);
* credential resolution (`resolveUrl`, `resolveOrg`, `resolveToken`,
  `resolveConfig`, `write_df_resolve`), following `datastore.py` and
  `api.py` (`write_df`);
* Flux query construction (`buildQuery`), following `datastore.py`;
* result materialization (`materialize`), following `datastore.py`;
* write-path point construction and type coercion (`coerceField`,
  `buildPoint`, `write_df_points`), following `api.py` (`write_df`);
* storey target column-role resolution, per-event error handling and the
  batch buffer (`resolve_time_column`, `influxStoreyCall`, `batchCall`,
  `flush_batch`), following `storey_target.py`.

External collaborators (the InfluxDB client, pandas conversions, the
mlrun secret store, `os.environ`) are modelled as parameters: lookup
functions `String → Option String`, a write oracle, and abstract cell
values.  Python truthiness of optional strings is modelled by `truthy`.
-/

/-! ## Python-style string helpers

Python's `str.split`, `in`, `str.upper` and `urllib.parse.parse_qs` are
modelled by structurally recursive functions over the character list, so
that every definition evaluates inside the kernel. -/

/-- Split a character list at every occurrence of `sep`
(model of Python `str.split(sep)` for a one-character separator). -/
def splitOnChar (sep : Char) : List Char → List (List Char)
  | [] => [[]]
  | c :: cs =>
    match splitOnChar sep cs with
    | [] => [[]]
    | cur :: rest => if c = sep then [] :: cur :: rest else (c :: cur) :: rest

/-- String-level wrapper for `splitOnChar`. -/
def splitStr (sep : Char) (s : String) : List String :=
  (splitOnChar sep s.data).map String.mk

/-- Model of Python `sep in s` for a one-character separator. -/
def strContains (s : String) (c : Char) : Bool :=
  s.data.contains c

/-- Model of Python `str.upper` (ASCII, which covers the env tags used). -/
def pyUpper (s : String) : String :=
  String.mk (s.data.map Char.toUpper)

/-- Model of Python `s.split(sep, 1)`: the part before the first `sep`
and the remainder.  Callers in the source only use it when `sep` occurs
in `s` (guarded by an `in` check), where Python returns two parts. -/
def pySplit1 (sep : Char) (s : String) : String × String :=
  match splitStr sep s with
  | [] => (s, "")
  | [x] => (x, "")
  | x :: rest => (x, String.intercalate (String.mk [sep]) rest)

/-- Python truthiness of an optional string: `None` and `""` are falsy. -/
def truthy : Option String → Bool
  | none => false
  | some s => s ≠ ""

/-- Model of Python `a or b` on optional strings. -/
def pyOr (a b : Option String) : Option String :=
  if truthy a then a else b

/-- Model of Python `a or b` where `b` is a plain (truthy) string. -/
def pyOrS (a : Option String) (b : String) : String :=
  if truthy a then a.getD "" else b

/-- Model of Python `str(x)` on an optional string (an f-string renders
`None` as the text `None`). -/
def pyStrOpt : Option String → String
  | none => "None"
  | some s => s

/-- Model of `urllib.parse.parse_qs` (with its default
`keep_blank_values=False`): split the query on `&`, split each segment at
the first `=`, drop segments with no `=` or with an empty value.
Percent-decoding is omitted; the claims only involve plain values. -/
def parse_qs (query : String) : List (String × String) :=
  (splitStr '&' query).filterMap fun seg =>
    match splitStr '=' seg with
    | [] => none
    | [_] => none
    | k :: vs =>
      let v := String.intercalate "=" vs
      if v = "" then none else some (k, v)

/-- Model of `q.get(k, [d])[0]` on a `parse_qs` result: the first value
bound to key `k`, if any. -/
def qGetFirst (q : List (String × String)) (k : String) : Option String :=
  ((q.filter fun kv => kv.1 = k).head?).map fun kv => kv.2

/-- Model of `q.get(k, [])` on a `parse_qs` result: all values bound to
key `k`, in query order. -/
def qGetAll (q : List (String × String)) (k : String) : List String :=
  (q.filter fun kv => kv.1 = k).map fun kv => kv.2

/-! ## URI / key parsing (`InfluxStore.get`, datastore.py lines 58-75) -/

/-- The structured descriptor parsed from a `bucket/measurement?...` key
(`InfluxStore.get`, datastore.py lines 59-75). -/
structure ParsedKey where
  bucket : String
  measurement : String
  field_filter : Option String
  tag_filters : List String
  env : String
  range_window : String
  url_override : Option String
  org_override : Option String
  token_inline : Option String
  token_secret : Option String
deriving DecidableEq, Repr

/-- Parse a datastore key, following `InfluxStore.get` lines 59-75:
split off the query at the first `?`, require a `/` in the path, split
the path at the first `/` into bucket and measurement, then read the
query parameters with `parse_qs` defaults. -/
def parseKey (key : String) : Except String ParsedKey :=
  let pq := pySplit1 '?' key
  let path := pq.1
  let query := pq.2
  if ¬ strContains path '/' then
    Except.error ("Invalid key: " ++ key ++ ". Expected format 'bucket/measurement'")
  else
    let bm := pySplit1 '/' path
    let q := parse_qs query
    Except.ok
      { bucket := bm.1
        measurement := bm.2
        field_filter := qGetFirst q "field"
        tag_filters := qGetAll q "tag"
        env := pyUpper (pyOrS (some ((qGetFirst q "env").getD "DEV")) "DEV")
        range_window := (qGetFirst q "range").getD "-1h"
        url_override := qGetFirst q "url"
        org_override := qGetFirst q "org"
        token_inline := qGetFirst q "token"
        token_secret := qGetFirst q "token_secret" }

/-! ## Credential resolution (datastore.py lines 77-98, api.py lines 148-153) -/

/-- The ambient lookup capabilities the resolution code calls into:
`os.environ.get` and the mlrun project secret store. -/
structure Env where
  osenv : String → Option String
  secrets : String → Option String

/-- Modelled from the spec: `mlrun.get_secret_or_env`, the external
secret-or-environment lookup collaborator — a named secret lookup with
an environment-variable fallback for the same name. -/
def get_secret_or_env (e : Env) (k : String) : Option String :=
  pyOr (e.secrets k) (e.osenv k)

/-- The optional run context's secret lookup (`ctx.get_secret`).
`get_secret k = none` models the call raising (the caller keeps the
previous token then); `some r` models a normal return of `r`. -/
structure Ctx where
  get_secret : String → Option (Option String)

/-- Resolved connection configuration `{url, org, token}`. -/
structure ConnConfig where
  url : String
  org : String
  token : String
deriving DecidableEq, Repr

/-- `influx_url = url_override or os.environ.get(f"INFLUX_{env}_URL")`
(datastore.py line 78, api.py line 149). -/
def resolveUrl (env : String) (url_override : Option String) (e : Env) : Option String :=
  pyOr url_override (e.osenv ("INFLUX_" ++ env ++ "_URL"))

/-- `influx_org = org_override or os.environ.get(f"INFLUX_{env}_ORG")`
(datastore.py line 79, api.py line 150). -/
def resolveOrg (env : String) (org_override : Option String) (e : Env) : Option String :=
  pyOr org_override (e.osenv ("INFLUX_" ++ env ++ "_ORG"))

/-- Token resolution in `InfluxStore.get` (datastore.py lines 81-92):
inline token, else `get_secret_or_env(token_secret)` when a secret name
was given, else `get_secret_or_env(INFLUX_<ENV>_TOKEN)`; when the result
is still falsy and a run context is present, try
`ctx.get_secret(token_secret or default)`, keeping the previous value if
that call raises. -/
def resolveToken (env : String) (token_inline token_secret : Option String)
    (e : Env) (ctx : Option Ctx) : Option String :=
  let token :=
    if truthy token_inline then token_inline
    else if truthy token_secret then get_secret_or_env e (token_secret.getD "")
    else get_secret_or_env e ("INFLUX_" ++ env ++ "_TOKEN")
  if ¬ truthy token then
    match ctx with
    | some c =>
      match c.get_secret (pyOrS token_secret ("INFLUX_" ++ env ++ "_TOKEN")) with
      | some r => r
      | none => token
    | none => token
  else token

/-- The error text raised by `InfluxStore.get` when url/org/token do not
all resolve (datastore.py lines 94-98), rendered field by field as the
Python f-string does. -/
def getErrMsg (env : String) (influx_url influx_org : Option String) : String :=
  "Missing Influx config (env=" ++ env ++ "). " ++
  "Need url/org/token via URL or env/secrets: " ++
  "INFLUX_" ++ env ++ "_URL : " ++ pyStrOpt influx_url ++
  ", INFLUX_" ++ env ++ "_ORG : " ++ pyStrOpt influx_org ++
  " and INFLUX_" ++ env ++ "_TOKEN"

/-- Full credential resolution of `InfluxStore.get` (datastore.py lines
77-98): resolve the three fields, raise with `getErrMsg` when any is
falsy. -/
def resolveConfig (p : ParsedKey) (e : Env) (ctx : Option Ctx) :
    Except String ConnConfig :=
  let influx_url := resolveUrl p.env p.url_override e
  let influx_org := resolveOrg p.env p.org_override e
  let token := resolveToken p.env p.token_inline p.token_secret e ctx
  if ¬ truthy influx_url ∨ ¬ truthy influx_org ∨ ¬ truthy token then
    Except.error (getErrMsg p.env influx_url influx_org)
  else
    Except.ok ⟨influx_url.getD "", influx_org.getD "", token.getD ""⟩

/-- Token resolution in `write_df` (api.py line 151):
`token_inline or get_secret_or_env(token_secret or f"INFLUX_{env}_TOKEN")`. -/
def write_df_token (env : String) (token_inline token_secret : Option String)
    (e : Env) : Option String :=
  pyOr token_inline (get_secret_or_env e (pyOrS token_secret ("INFLUX_" ++ env ++ "_TOKEN")))

/-- Credential resolution of `write_df` (api.py lines 148-153), with its
own (shorter) error text. -/
def write_df_resolve (env : String)
    (url_override org_override token_inline token_secret : Option String)
    (e : Env) : Except String ConnConfig :=
  let influx_url := resolveUrl env url_override e
  let influx_org := resolveOrg env org_override e
  let token := write_df_token env token_inline token_secret e
  if truthy influx_url ∧ truthy influx_org ∧ truthy token then
    Except.ok ⟨influx_url.getD "", influx_org.getD "", token.getD ""⟩
  else
    Except.error ("Missing Influx config for env=" ++ env ++ " (url/org/token).")

/-! ## Flux query construction (datastore.py lines 100-111) -/

/-- One tag filter clause: `tag.split(":", 1)` into key and value,
rendered as a Flux filter (datastore.py lines 110-111). -/
def tagClause (tag : String) : String :=
  let kv := pySplit1 ':' tag
  " |> filter(fn: (r) => r." ++ kv.1 ++ " == \"" ++ kv.2 ++ "\")"

/-- The `for tag in tag_filters` loop (datastore.py lines 108-111):
append a clause for each tag containing a colon, skip the rest. -/
def buildTagFilters (query : String) : List String → String
  | [] => query
  | t :: rest =>
    buildTagFilters (if strContains t ':' then query ++ tagClause t else query) rest

/-- The fixed range-plus-measurement part of the Flux query
(datastore.py lines 101-105). -/
def baseClause (p : ParsedKey) : String :=
  "from(bucket:\"" ++ p.bucket ++ "\") " ++
  "|> range(start: " ++ p.range_window ++ ") " ++
  "|> filter(fn: (r) => r._measurement == \"" ++ p.measurement ++ "\")"

/-- The optional field filter clause (datastore.py lines 106-107). -/
def fieldClause (p : ParsedKey) : String :=
  if truthy p.field_filter then
    " |> filter(fn: (r) => r._field == \"" ++ p.field_filter.getD "" ++ "\")"
  else ""

/-- Flux query construction of `InfluxStore.get` (datastore.py lines
100-111): base query, optional field filter, then the tag-filter loop. -/
def buildQuery (p : ParsedKey) : String :=
  buildTagFilters (baseClause p ++ fieldClause p) p.tag_filters

/-! ## Write path: values, coercion and point construction
(api.py `write_df`, lines 155-183) -/

/-- Exact decimal `mantissa / 10 ^ exp`, the value domain for Python
floats produced by parsing decimal literals (`3.14` is `⟨314, 2⟩`). -/
structure Dec where
  mantissa : Int
  exp : Nat
deriving DecidableEq, Repr

/-- Accumulate decimal digits (model of int-from-digits); fails on a
non-digit character. -/
def digitsToNat (acc : Nat) : List Char → Option Nat
  | [] => some acc
  | c :: cs =>
    if c.isDigit then digitsToNat (acc * 10 + (c.toNat - 48)) cs else none

/-- Unsigned part of `pyFloat`: digits, optionally followed by `.` and
more digits; at least one digit overall. -/
def pyFloatCore (l : List Char) : Option Dec :=
  let intPart := l.takeWhile Char.isDigit
  let rest := l.dropWhile Char.isDigit
  match rest with
  | [] =>
    if intPart.isEmpty then none
    else (digitsToNat 0 intPart).map fun n => ⟨(n : Int), 0⟩
  | '.' :: frac =>
    if frac.all Char.isDigit ∧ ¬ (intPart.isEmpty ∧ frac.isEmpty) then
      match digitsToNat 0 intPart, digitsToNat 0 frac with
      | some ip, some fp => some ⟨(ip * 10 ^ frac.length + fp : Int), frac.length⟩
      | _, _ => none
    else none
  | _ => none

/-- Model of Python `float(s)` restricted to optionally signed decimal
literals (the forms relevant to the claims); `none` models the cast
raising `ValueError`. -/
def pyFloat (s : String) : Option Dec :=
  match s.data with
  | '-' :: r => (pyFloatCore r).map fun d => ⟨-d.mantissa, d.exp⟩
  | '+' :: r => pyFloatCore r
  | l => pyFloatCore l

/-- A Python scalar cell value as seen by `write_df` (a null/NaN cell is
an absent `Option PyVal`, mirroring `pd.notna`). -/
inductive PyVal where
  | b : Bool → PyVal
  | i : Int → PyVal
  | f : Dec → PyVal
  | s : String → PyVal
deriving DecidableEq, Repr

/-- Model of Python `str(x)` on a scalar cell, used when a value is
stored as an InfluxDB tag. -/
def pyStrVal : PyVal → String
  | .b true => "True"
  | .b false => "False"
  | .i n => toString n
  | .f d => toString d.mantissa ++ "e-" ++ toString d.exp
  | .s t => t

/-- A typed InfluxDB field value: exactly one of bool, int, float,
string is chosen per written value. -/
inductive FieldVal where
  | b : Bool → FieldVal
  | i : Int → FieldVal
  | f : Dec → FieldVal
  | s : String → FieldVal
deriving DecidableEq, Repr

/-- Field-value coercion of `write_df` (api.py lines 172-179):
`isinstance(v, (bool, int, float))` passes through unchanged; any other
value is attempted as `float(v)` and only on cast failure is it written
as `str(v)`. -/
def coerceField : PyVal → FieldVal
  | .b x => .b x
  | .i n => .i n
  | .f d => .f d
  | .s t =>
    match pyFloat t with
    | some d => .f d
    | none => .s t

/-- A dataframe row: cells by column name; `none` models a null/NaN
cell (so `pd.notna(row[c])` is `rowGet row c = some v`). -/
abbrev Row : Type := List (String × Option PyVal)

/-- Cell access `row[c]`, with a missing key behaving like a null. -/
def rowGet (row : Row) (c : String) : Option PyVal :=
  (List.lookup c row).getD none

/-- Tabular data handed to `write_df`: a column list and rows. -/
structure DataFrame where
  columns : List String
  rows : List Row
deriving Repr

/-- An emitted InfluxDB point.  The timestamp is kept as the raw time
cell; the `pd.to_datetime` conversion is external. -/
structure Point where
  measurement : String
  time : Option PyVal
  tags : List (String × String)
  fields : List (String × FieldVal)
deriving DecidableEq, Repr

/-- Field-column inference of `write_df` (api.py lines 156-157): only
when `field_cols is None`, every column not in `[time_col] + (tag_cols
or [])`. -/
def write_df_field_cols (columns : List String) (time_col : String)
    (tag_cols : Option (List String)) (field_cols : Option (List String)) :
    List String :=
  match field_cols with
  | some l => l
  | none => columns.filter fun c => ¬ (time_col :: (tag_cols.getD [])).contains c

/-- Per-row point construction of `write_df` (api.py lines 165-180):
tags from non-null tag columns via `str`, fields from non-null field
columns via `coerceField`; both guarded by `c in df.columns`. -/
def buildPoint (measurement : String) (columns : List String) (time_col : String)
    (tag_cols : Option (List String)) (field_cols : List String) (row : Row) :
    Point :=
  { measurement := measurement
    time := rowGet row time_col
    tags := (tag_cols.getD []).filterMap fun c =>
      if columns.contains c then
        match rowGet row c with
        | some v => some (c, pyStrVal v)
        | none => none
      else none
    fields := field_cols.filterMap fun c =>
      if columns.contains c then
        (rowGet row c).map fun v => (c, coerceField v)
      else none }

/-- The `for i, row in df.iterrows()` loop of `write_df` (api.py lines
163-180): one point appended per row, in order. -/
def write_df_points (measurement : String) (time_col : String)
    (tag_cols : Option (List String)) (field_cols : List String)
    (df : DataFrame) : List Point :=
  df.rows.map (buildPoint measurement df.columns time_col tag_cols field_cols)

/-! ## Result materialization (datastore.py lines 118-131) -/

/-- A raw Flux record: its `values` mapping, which carries the reserved
`_time`/`_field`/`_value`/`_measurement` entries plus arbitrary tags.
The `get_time()`-style accessors read the reserved keys. -/
structure FluxRecord where
  values : List (String × PyVal)
deriving Repr

/-- One output row of the materialized table. -/
structure ResultRow where
  time : Option PyVal
  field : Option PyVal
  value : Option PyVal
  measurement : Option PyVal
  tags : List (String × PyVal)
deriving DecidableEq, Repr

/-- The four reserved record attribute names excluded from the tags map
(datastore.py line 124). -/
def reservedNames : List String := ["_time", "_field", "_value", "_measurement"]

/-- Convert one record to one output row (datastore.py lines 122-129):
the tags map is `record.values` minus the reserved names; the five
columns come from the record accessors. -/
def recordToRow (r : FluxRecord) : ResultRow :=
  { time := List.lookup "_time" r.values
    field := List.lookup "_field" r.values
    value := List.lookup "_value" r.values
    measurement := List.lookup "_measurement" r.values
    tags := r.values.filter fun kv => ¬ reservedNames.contains kv.1 }

/-- The nested `for table: for record:` accumulation loop (datastore.py
lines 118-129). -/
def materializeRecords (tables : List (List FluxRecord)) : List ResultRow :=
  tables.foldl (fun acc table =>
    table.foldl (fun acc2 record => acc2 ++ [recordToRow record]) acc) []

/-- The materialized result table with its fixed column set. -/
structure ResultTable where
  columns : List String
  rows : List ResultRow
deriving Repr

/-- `pd.DataFrame(records, columns=[...])` (datastore.py line 131): the
five fixed columns are always present, whatever the records. -/
def materialize (tables : List (List FluxRecord)) : ResultTable :=
  { columns := ["time", "field", "value", "measurement", "tags"]
    rows := materializeRecords tables }

/-! ## Storey target: column-role resolution (storey_target.py 144-174) -/

/-- The stored configuration of `InfluxStoreyTarget` after `__init__`
(storey_target.py lines 48-55): `key_columns` and `tag_cols` have been
defaulted with `or []`, `field_cols` is stored as passed. -/
structure StoreyCfg where
  timestamp_key : Option String
  key_columns : List String
  time_col : Option String
  tag_cols : List String
  field_cols : Option (List String)
deriving Repr

/-- `_resolve_time_column` (storey_target.py lines 144-150):
`self.time_col or self.timestamp_key or "time"`. -/
def resolve_time_column (t : StoreyCfg) : String :=
  pyOrS t.time_col (pyOrS t.timestamp_key "time")

/-- `_resolve_tag_columns` (storey_target.py lines 152-158): the
explicit tag columns when truthy, else the key columns. -/
def resolve_tag_columns (t : StoreyCfg) : List String :=
  if t.tag_cols ≠ [] then t.tag_cols else t.key_columns

/-- `_resolve_field_columns` (storey_target.py lines 160-174): the
explicit field columns when truthy; else all dataframe columns not in
`{time_col} ∪ tag_cols`, with an empty inference collapsing to `None`. -/
def resolve_field_columns (t : StoreyCfg) (columns : List String)
    (time_col : String) (tag_cols : List String) : Option (List String) :=
  match t.field_cols with
  | some l =>
    if l ≠ [] then some l
    else
      let fc := columns.filter fun c => ¬ (c = time_col ∨ tag_cols.contains c)
      if fc = [] then none else some fc
  | none =>
    let fc := columns.filter fun c => ¬ (c = time_col ∨ tag_cols.contains c)
    if fc = [] then none else some fc

/-! ## Storey target: per-event processing (storey_target.py 70-105) -/

/-- The event shapes distinguished by `InfluxStoreyTarget.__call__`
(storey_target.py lines 78-92): an event object whose `body` is a dict
or a dataframe, a bare dict, a bare dataframe, or anything else. -/
inductive StoreyEvent where
  | bodyDict (d : Row)
  | bodyDf (df : DataFrame)
  | dict (d : Row)
  | df (df : DataFrame)
  | other

/-- The event-to-dataframe conversion of `__call__`; `none` is the
unsupported-type branch (warn and pass through). -/
def eventToDf : StoreyEvent → Option DataFrame
  | .bodyDict d => some ⟨d.map fun kv => kv.1, [d]⟩
  | .bodyDf df => some df
  | .dict d => some ⟨d.map fun kv => kv.1, [d]⟩
  | .df df => some df
  | .other => none

/-- `InfluxStoreyTarget.__call__` (storey_target.py lines 70-105): the
whole body runs in a `try`; the write (whose outcome is the `write`
oracle) may raise; the `except` logs and returns the event unchanged. -/
def influxStoreyCall (write : DataFrame → Except String Unit)
    (ev : StoreyEvent) : StoreyEvent :=
  let result : Except String StoreyEvent :=
    match eventToDf ev with
    | none => Except.ok ev
    | some df =>
      if df.rows.isEmpty then Except.ok ev
      else
        match write df with
        | Except.ok _ => Except.ok ev
        | Except.error e => Except.error e
  match result with
  | Except.ok e => e
  | Except.error _ => ev

/-! ## Batch buffer (storey_target.py 185-255) -/

/-- Batch configuration (`batch_size`, `flush_interval`); times are
modelled as integers (seconds). -/
structure BatchCfg where
  batch_size : Nat
  flush_interval : Int

/-- Mutable state of `InfluxBatchStoreyTarget`: the pending events and
the last flush timestamp. -/
structure BatchState (α : Type) where
  batch_events : List α
  last_flush_time : Int
deriving DecidableEq, Repr

/-- `_flush_batch` (storey_target.py lines 226-248): no-op on an empty
buffer; otherwise the buffer content is written (outcome given by the
`writeOk` oracle).  On success the buffer is cleared and the flush time
updated; on failure the buffer is cleared anyway and the exception
re-raised (the returned flag).  The middle component lists the payloads
handed to the write. -/
def flush_batch (writeOk : Bool) (now : Int) (s : BatchState α) :
    BatchState α × List (List α) × Bool :=
  if s.batch_events.isEmpty then (s, [], false)
  else if writeOk then (⟨[], now⟩, [s.batch_events], false)
  else (⟨[], s.last_flush_time⟩, [s.batch_events], true)

/-- `InfluxBatchStoreyTarget.__call__` (storey_target.py lines 198-224):
append the event, flush when the size or time threshold is reached; the
surrounding `try` swallows a re-raised flush failure and the event is
returned in every path (the last component). -/
def batchCall (cfg : BatchCfg) (writeOk : Bool) (now : Int) (ev : α)
    (s : BatchState α) : BatchState α × List (List α) × α :=
  let s1 : BatchState α := ⟨s.batch_events ++ [ev], s.last_flush_time⟩
  if cfg.batch_size ≤ s1.batch_events.length ∨
      cfg.flush_interval ≤ now - s1.last_flush_time then
    let r := flush_batch writeOk now s1
    (r.1, r.2.1, ev)
  else (s1, [], ev)

/-- Run a sequence of `(now, event)` calls, collecting every flushed
payload in order. -/
def runCalls (cfg : BatchCfg) (writeOk : Bool) :
    List (Int × α) → BatchState α → BatchState α × List (List α)
  | [], s => (s, [])
  | (t, e) :: rest, s =>
    let r := batchCall cfg writeOk t e s
    let r2 := runCalls cfg writeOk rest r.1
    (r2.1, r.2.1 ++ r2.2)

/-- `__del__` (storey_target.py lines 250-255): a final `_flush_batch`
whose exception, if any, is swallowed (the raised flag is discarded). -/
def batchDel (writeOk : Bool) (now : Int) (s : BatchState α) : BatchState α :=
  (flush_batch writeOk now s).1

/-! ## Helper lemmas -/

/-- Every value produced by `parse_qs` is non-empty (blank values are
discarded), hence truthy in Python. -/
theorem parse_qs_val_ne (q : String) : ∀ kv ∈ parse_qs q, kv.2 ≠ "" := by
  intro kv hkv
  unfold parse_qs at hkv
  obtain ⟨seg, _, hmap⟩ := List.mem_filterMap.mp hkv
  cases hsp : splitStr '=' seg with
  | nil => rw [hsp] at hmap; simp at hmap
  | cons k vs =>
    cases vs with
    | nil => rw [hsp] at hmap; simp at hmap
    | cons v1 vrest =>
      rw [hsp] at hmap
      simp only at hmap
      split at hmap
      · simp at hmap
      · rename_i hne
        simp only [Option.some.injEq] at hmap
        rw [← hmap]
        exact hne

/-- A first-occurrence lookup that succeeds returns a pair of the query. -/
theorem qGetFirst_mem (q : List (String × String)) (k v : String)
    (h : qGetFirst q k = some v) : (k, v) ∈ q := by
  unfold qGetFirst at h
  cases hh : (q.filter fun kv => kv.1 = k).head? with
  | none => rw [hh] at h; simp at h
  | some kv =>
    rw [hh] at h
    simp only [Option.map_some', Option.some.injEq] at h
    have hmem : kv ∈ q.filter fun kv => kv.1 = k :=
      List.mem_of_mem_head? (by simp [hh])
    obtain ⟨hq, hk⟩ := List.mem_filter.mp hmem
    have hk1 : kv.1 = k := by simpa using hk
    have : kv = (k, v) := by
      cases kv
      simp_all
    rw [← this]
    exact hq

/-- The inline token field of a parsed key is the first `token` query
value. -/
theorem parseKey_token_inline (key : String) (p : ParsedKey)
    (h : parseKey key = Except.ok p) :
    p.token_inline = qGetFirst (parse_qs (pySplit1 '?' key).2) "token" := by
  unfold parseKey at h
  dsimp only at h
  split at h
  · simp at h
  · cases h
    rfl

/-- Inline token values coming out of a successfully parsed key are
never the empty string. -/
theorem parseKey_token_truthy (key X : String) (p : ParsedKey)
    (h : parseKey key = Except.ok p) (hX : p.token_inline = some X) : X ≠ "" := by
  rw [parseKey_token_inline key p h] at hX
  exact parse_qs_val_ne _ _ (qGetFirst_mem _ _ _ hX)

/-- With a truthy inline token, `resolveToken` returns it unchanged. -/
theorem resolveToken_inline (env : String) (ts : Option String) (X : String)
    (hX : X ≠ "") (e : Env) (ctx : Option Ctx) :
    resolveToken env (some X) ts e ctx = some X := by
  unfold resolveToken
  simp [truthy, hX]

/-- With a truthy inline token, `write_df_token` returns it unchanged. -/
theorem write_df_token_inline (env : String) (ts : Option String) (X : String)
    (hX : X ≠ "") (e : Env) :
    write_df_token env (some X) ts e = some X := by
  unfold write_df_token pyOr
  simp [truthy, hX]

/-- Right fold concatenation of clause strings. -/
def concatClauses (l : List String) : String :=
  l.foldr (fun a b => a ++ b) ""

/-- Closed form of the tag-filter loop: it appends exactly the clauses
of the colon-containing tags, in order. -/
theorem buildTagFilters_eq (tags : List String) (q : String) :
    buildTagFilters q tags =
      q ++ concatClauses ((tags.filter fun t => strContains t ':').map tagClause) := by
  induction tags generalizing q with
  | nil => simp [buildTagFilters, concatClauses]
  | cons t rest ih =>
    unfold buildTagFilters
    by_cases h : strContains t ':'
    · rw [if_pos h, ih, List.filter_cons_of_pos (by simpa using h)]
      simp only [List.map_cons]
      show (q ++ tagClause t) ++ _ = _
      rw [String.append_assoc]
      rfl
    · rw [if_neg h, ih, List.filter_cons_of_neg (by simpa using h)]

/-! ## C1: credential resolution precedence -/

/-- C1.  Credential resolution precedence: for every key whose query
carries an inline `token=X` (in particular together with a
`token_secret=Y`), the resolved token is `X`, in both the datastore
(`InfluxStore.get`) and the `write_df` resolution; per field the
highest-precedence source wins — an inline URI override beats the
environment-scoped `INFLUX_<ENV>_URL` / `INFLUX_<ENV>_ORG` variables,
and for the token: inline token, then the named secret lookup of
`token_secret` (default name `INFLUX_<ENV>_TOKEN`), then the
environment-variable fallback for that same name. -/
theorem credential_resolution_precedence
    (key X : String) (p : ParsedKey) (e : Env) (ctx : Option Ctx)
    (hp : parseKey key = Except.ok p) :
    (p.token_inline = some X →
      resolveToken p.env p.token_inline p.token_secret e ctx = some X ∧
      write_df_token p.env p.token_inline p.token_secret e = some X) ∧
    (truthy p.url_override →
      resolveUrl p.env p.url_override e = p.url_override) ∧
    (¬ truthy p.url_override →
      resolveUrl p.env p.url_override e = e.osenv ("INFLUX_" ++ p.env ++ "_URL")) ∧
    (truthy p.org_override →
      resolveOrg p.env p.org_override e = p.org_override) ∧
    (¬ truthy p.org_override →
      resolveOrg p.env p.org_override e = e.osenv ("INFLUX_" ++ p.env ++ "_ORG")) ∧
    (∀ Y, ¬ truthy p.token_inline → p.token_secret = some Y → Y ≠ "" →
      (truthy (e.secrets Y) →
        resolveToken p.env p.token_inline p.token_secret e ctx = e.secrets Y) ∧
      (¬ truthy (e.secrets Y) → truthy (e.osenv Y) →
        resolveToken p.env p.token_inline p.token_secret e ctx = e.osenv Y)) ∧
    (¬ truthy p.token_inline → ¬ truthy p.token_secret →
      (truthy (e.secrets ("INFLUX_" ++ p.env ++ "_TOKEN")) →
        resolveToken p.env p.token_inline p.token_secret e ctx =
          e.secrets ("INFLUX_" ++ p.env ++ "_TOKEN")) ∧
      (¬ truthy (e.secrets ("INFLUX_" ++ p.env ++ "_TOKEN")) →
        truthy (e.osenv ("INFLUX_" ++ p.env ++ "_TOKEN")) →
        resolveToken p.env p.token_inline p.token_secret e ctx =
          e.osenv ("INFLUX_" ++ p.env ++ "_TOKEN"))) := by
  refine ⟨?_, ?_, ?_, ?_, ?_, ?_, ?_⟩
  · intro hX
    have hne : X ≠ "" := parseKey_token_truthy key X p hp hX
    rw [hX]
    exact ⟨resolveToken_inline p.env p.token_secret X hne e ctx,
      write_df_token_inline p.env p.token_secret X hne e⟩
  · intro h; unfold resolveUrl pyOr; rw [if_pos h]
  · intro h; unfold resolveUrl pyOr; rw [if_neg h]
  · intro h; unfold resolveOrg pyOr; rw [if_pos h]
  · intro h; unfold resolveOrg pyOr; rw [if_neg h]
  · intro Y hni hts hY
    have htsY : truthy (some Y) := by simp [truthy, hY]
    rw [hts]
    constructor
    · intro hsec
      unfold resolveToken
      rw [if_neg hni, if_pos htsY]
      unfold get_secret_or_env pyOr
      simp only [Option.getD_some]
      rw [if_pos hsec]
      rw [if_neg (by simpa using hsec)]
    · intro hsec henv
      unfold resolveToken
      rw [if_neg hni, if_pos htsY]
      unfold get_secret_or_env pyOr
      simp only [Option.getD_some]
      rw [if_neg hsec]
      rw [if_neg (by simpa using henv)]
  · intro hni hts
    constructor
    · intro hsec
      unfold resolveToken
      rw [if_neg hni, if_neg hts]
      unfold get_secret_or_env pyOr
      rw [if_pos hsec]
      rw [if_neg (by simpa using hsec)]
    · intro hsec henv
      unfold resolveToken
      rw [if_neg hni, if_neg hts]
      unfold get_secret_or_env pyOr
      rw [if_neg hsec]
      rw [if_neg (by simpa using henv)]

/-- Concrete lookup environment for the C1 witness. -/
def c1Env : Env where
  osenv := fun k => if k = "INFLUX_DEV_URL" then some "http://h:8086" else none
  secrets := fun k => if k = "Y" then some "secret-token" else none

/-- Concrete parsed key for the C1 witness: both an inline `token=X` and
a `token_secret=Y` appear; the resolved token is `X`. -/
def c1Key : ParsedKey where
  bucket := "b"
  measurement := "m"
  field_filter := none
  tag_filters := []
  env := "DEV"
  range_window := "-1h"
  url_override := none
  org_override := none
  token_inline := some "X"
  token_secret := some "Y"

/-- Witness for C1 at the key `b/m?token=X&token_secret=Y`: the inline
token wins in both resolution paths, and the url falls back to the
environment-scoped variable. -/
theorem credential_resolution_precedence_witness :
    resolveToken "DEV" (some "X") (some "Y") c1Env none = some "X" ∧
    write_df_token "DEV" (some "X") (some "Y") c1Env = some "X" ∧
    resolveUrl "DEV" none c1Env = some "http://h:8086" := by
  have h := credential_resolution_precedence "b/m?token=X&token_secret=Y" "X"
    c1Key c1Env none (by rfl)
  refine ⟨(h.1 rfl).1, (h.1 rfl).2, ?_⟩
  have h3 : resolveUrl "DEV" none c1Env = c1Env.osenv ("INFLUX_" ++ "DEV" ++ "_URL") :=
    h.2.2.1 (by decide)
  rw [h3]
  decide

/-! ## C2: query translation -/

/-- C2.  Query translation: the built Flux query is exactly the range
plus measurement-equality base, then the field-equality clause (present
iff a truthy field filter was parsed, absent otherwise), then one
tag-equality clause per tag parameter containing a `:`, in parse order;
tag parameters without a `:` are dropped silently — the query is
unchanged by removing them, and construction is total (never raises). -/
theorem query_translation (p : ParsedKey) :
    buildQuery p =
      baseClause p ++ fieldClause p ++
        concatClauses ((p.tag_filters.filter fun t => strContains t ':').map tagClause) ∧
    buildQuery p =
      buildQuery { p with tag_filters := p.tag_filters.filter fun t => strContains t ':' } ∧
    (truthy p.field_filter →
      fieldClause p =
        " |> filter(fn: (r) => r._field == \"" ++ p.field_filter.getD "" ++ "\")") ∧
    (¬ truthy p.field_filter → fieldClause p = "") := by
  refine ⟨?_, ?_, ?_, ?_⟩
  · unfold buildQuery
    rw [buildTagFilters_eq]
  · show buildTagFilters _ _ = buildTagFilters _ _
    rw [buildTagFilters_eq, buildTagFilters_eq]
    simp only [List.filter_filter, Bool.and_self]
    rfl
  · intro h; unfold fieldClause; rw [if_pos h]
  · intro h; unfold fieldClause; rw [if_neg h]

/-- Concrete descriptor for the C2 witness: a field filter, one valid
tag `s:a` and one colon-less tag `bad`. -/
def c2Key : ParsedKey where
  bucket := "b"
  measurement := "m"
  field_filter := some "temp"
  tag_filters := ["s:a", "bad"]
  env := "DEV"
  range_window := "-24h"
  url_override := none
  org_override := none
  token_inline := none
  token_secret := none

/-- Witness for C2: on `c2Key` the query carries the range, measurement
and field clauses and exactly one tag clause (for `s:a`); the tag `bad`
is dropped. -/
theorem query_translation_witness :
    buildQuery c2Key =
      "from(bucket:\"b\") |> range(start: -24h) " ++
      "|> filter(fn: (r) => r._measurement == \"m\")" ++
      " |> filter(fn: (r) => r._field == \"temp\")" ++
      " |> filter(fn: (r) => r.s == \"a\")" ∧
    fieldClause c2Key = " |> filter(fn: (r) => r._field == \"temp\")" := by
  have h := query_translation c2Key
  refine ⟨?_, h.2.2.1 (by decide)⟩
  rw [h.1]
  decide

/-! ## C3 and C10: write-path coercion and null skipping -/

/-- Every tag emitted by `buildPoint` comes from a non-null cell of a
declared column. -/
theorem buildPoint_tag_mem (m : String) (cols : List String) (tc : String)
    (tag_cols : Option (List String)) (fcs : List String) (row : Row)
    (c t : String)
    (h : (c, t) ∈ (buildPoint m cols tc tag_cols fcs row).tags) :
    ∃ v, rowGet row c = some v ∧ t = pyStrVal v := by
  have h' : (c, t) ∈ (tag_cols.getD []).filterMap fun c =>
      if cols.contains c then
        match rowGet row c with
        | some v => some (c, pyStrVal v)
        | none => none
      else none := h
  obtain ⟨c', _, heq⟩ := List.mem_filterMap.mp h'
  by_cases hc : cols.contains c'
  · rw [if_pos hc] at heq
    cases hv : rowGet row c' with
    | none => rw [hv] at heq; simp at heq
    | some v =>
      rw [hv] at heq
      simp only [Option.some.injEq, Prod.mk.injEq] at heq
      obtain ⟨hc1, ht⟩ := heq
      exact ⟨v, by rw [← hc1]; exact hv, ht.symm⟩
  · rw [if_neg hc] at heq
    simp at heq

/-- Every field emitted by `buildPoint` comes from a non-null cell of a
declared column, coerced by `coerceField`. -/
theorem buildPoint_field_mem (m : String) (cols : List String) (tc : String)
    (tag_cols : Option (List String)) (fcs : List String) (row : Row)
    (c : String) (fv : FieldVal)
    (h : (c, fv) ∈ (buildPoint m cols tc tag_cols fcs row).fields) :
    ∃ v, rowGet row c = some v ∧ fv = coerceField v := by
  have h' : (c, fv) ∈ fcs.filterMap fun c =>
      if cols.contains c then
        (rowGet row c).map fun v => (c, coerceField v)
      else none := h
  obtain ⟨c', _, heq⟩ := List.mem_filterMap.mp h'
  by_cases hc : cols.contains c'
  · rw [if_pos hc] at heq
    cases hv : rowGet row c' with
    | none => rw [hv] at heq; simp at heq
    | some v =>
      rw [hv] at heq
      simp only [Option.map_some', Option.some.injEq, Prod.mk.injEq] at heq
      obtain ⟨hc1, ht⟩ := heq
      exact ⟨v, by rw [← hc1]; exact hv, ht.symm⟩
  · rw [if_neg hc] at heq
    simp at heq

/-- C3.  Field-value type coercion: booleans, integers and floats pass
through `coerceField` unchanged; any other (string) value is first
attempted as a float cast and becomes a float field when the cast
succeeds, a string field only when it fails (so `"3.14"` becomes the
float `3.14` and `"abc"` stays a string); exactly one of
bool/int/float/string is chosen (the codomain `FieldVal`); and a tag
column whose cell is null in a row is omitted from the emitted point's
tags rather than coerced to a placeholder. -/
theorem field_value_coercion (x : Bool) (n : Int) (d : Dec) (t : String)
    (m : String) (cols : List String) (tc : String)
    (tag_cols : Option (List String)) (fcs : List String) (row : Row)
    (c : String) :
    coerceField (PyVal.b x) = FieldVal.b x ∧
    coerceField (PyVal.i n) = FieldVal.i n ∧
    coerceField (PyVal.f d) = FieldVal.f d ∧
    (∀ dv, pyFloat t = some dv → coerceField (PyVal.s t) = FieldVal.f dv) ∧
    (pyFloat t = none → coerceField (PyVal.s t) = FieldVal.s t) ∧
    (rowGet row c = none →
      c ∉ (buildPoint m cols tc tag_cols fcs row).tags.map Prod.fst) := by
  refine ⟨rfl, rfl, rfl, ?_, ?_, ?_⟩
  · intro dv hdv
    simp only [coerceField, hdv]
  · intro hnone
    simp only [coerceField, hnone]
  · intro hnull hmem
    obtain ⟨⟨c1, tv⟩, hmem', hfst⟩ := List.mem_map.mp hmem
    simp only at hfst
    subst hfst
    obtain ⟨v, hv, _⟩ := buildPoint_tag_mem m cols tc tag_cols fcs row _ tv hmem'
    rw [hnull] at hv
    exact Option.noConfusion hv

/-- Concrete row for the C3/C10 witnesses: a null `sensor` tag cell and
string-valued field cells. -/
def c3Row : Row :=
  [("time", some (PyVal.i 0)), ("sensor", none),
   ("ratio", some (PyVal.s "3.14")), ("label", some (PyVal.s "abc"))]

/-- Witness for C3: `True` stays a boolean field, `"3.14"` becomes the
float `3.14` (the decimal `⟨314, 2⟩`), `"abc"` stays a string field, and
the null `sensor` tag is omitted from the emitted point. -/
theorem field_value_coercion_witness :
    coerceField (PyVal.b true) = FieldVal.b true ∧
    coerceField (PyVal.s "3.14") = FieldVal.f ⟨314, 2⟩ ∧
    coerceField (PyVal.s "abc") = FieldVal.s "abc" ∧
    "sensor" ∉ (buildPoint "m" ["time", "sensor", "ratio", "label"] "time"
      (some ["sensor"]) ["ratio", "label"] c3Row).tags.map Prod.fst := by
  have h := field_value_coercion true 0 ⟨0, 0⟩ "3.14" "m"
    ["time", "sensor", "ratio", "label"] "time" (some ["sensor"])
    ["ratio", "label"] c3Row "sensor"
  have h2 := field_value_coercion true 0 ⟨0, 0⟩ "abc" "m"
    ["time", "sensor", "ratio", "label"] "time" (some ["sensor"])
    ["ratio", "label"] c3Row "sensor"
  exact ⟨h.1, h.2.2.2.1 ⟨314, 2⟩ (by decide), h2.2.2.2.2.1 (by decide),
    h.2.2.2.2.2 (by decide)⟩

/-- C10.  In `write_df`, a field column whose cell is null in a row is
silently omitted from that row's emitted point, while non-null field
cells are written (coerced); the point itself is still emitted — one
point per dataframe row. -/
theorem null_field_values_skipped (m tc : String)
    (tag_cols : Option (List String)) (fcs : List String) (df : DataFrame)
    (row : Row) (c : String) (v : PyVal) :
    (write_df_points m tc tag_cols fcs df).length = df.rows.length ∧
    (rowGet row c = none →
      c ∉ (buildPoint m df.columns tc tag_cols fcs row).fields.map Prod.fst) ∧
    (c ∈ fcs → df.columns.contains c → rowGet row c = some v →
      (c, coerceField v) ∈ (buildPoint m df.columns tc tag_cols fcs row).fields) := by
  refine ⟨List.length_map _ _, ?_, ?_⟩
  · intro hnull hmem
    obtain ⟨⟨c1, fv⟩, hmem', hfst⟩ := List.mem_map.mp hmem
    simp only at hfst
    subst hfst
    obtain ⟨w, hw, _⟩ := buildPoint_field_mem m df.columns tc tag_cols fcs row _ fv hmem'
    rw [hnull] at hw
    exact Option.noConfusion hw
  · intro hfc hcol hv
    show (c, coerceField v) ∈ fcs.filterMap fun c =>
      if df.columns.contains c then
        (rowGet row c).map fun v => (c, coerceField v)
      else none
    refine List.mem_filterMap.mpr ⟨c, hfc, ?_⟩
    rw [if_pos hcol, hv]
    rfl

/-- Concrete dataframe for the C10 witness: two rows, the first with a
null `value` cell. -/
def c10Df : DataFrame where
  columns := ["time", "value"]
  rows := [[("time", some (PyVal.i 0)), ("value", none)],
           [("time", some (PyVal.i 1)), ("value", some (PyVal.i 7))]]

/-- Witness for C10: both rows still yield a point, the first point
omits the null `value` field, the second carries it. -/
theorem null_field_values_skipped_witness :
    (write_df_points "m" "time" none ["value"] c10Df).length = 2 ∧
    "value" ∉ (buildPoint "m" ["time", "value"] "time" none ["value"]
      [("time", some (PyVal.i 0)), ("value", none)]).fields.map Prod.fst ∧
    ("value", FieldVal.i 7) ∈ (buildPoint "m" ["time", "value"] "time" none ["value"]
      [("time", some (PyVal.i 1)), ("value", some (PyVal.i 7))]).fields := by
  have h1 := null_field_values_skipped "m" "time" none ["value"] c10Df
    [("time", some (PyVal.i 0)), ("value", none)] "value" (PyVal.i 7)
  have h2 := null_field_values_skipped "m" "time" none ["value"] c10Df
    [("time", some (PyVal.i 1)), ("value", some (PyVal.i 7))] "value" (PyVal.i 7)
  exact ⟨h1.1, h1.2.1 (by decide), h2.2.2 (by decide) (by decide) (by decide)⟩

/-! ## C4: column-role resolution -/

/-- Configuration exhibiting the counterexample to C4 as stated: an
explicit (but empty) field-column list. -/
def c4Cfg : StoreyCfg where
  timestamp_key := none
  key_columns := []
  time_col := none
  tag_cols := ["sensor"]
  field_cols := some []

/-- Counterexample to C4 as stated: with the explicit field-column list
`[]` given, the storey resolver does not return that explicit list — it
infers `["value"]` from the dataframe columns instead (Python truthiness
treats the explicit empty list as absent). -/
theorem column_role_explicit_empty_counterexample :
    c4Cfg.field_cols = some [] ∧
    resolve_field_columns c4Cfg ["time", "sensor", "value"] "time" ["sensor"] =
      some ["value"] ∧
    resolve_field_columns c4Cfg ["time", "sensor", "value"] "time" ["sensor"] ≠
      some [] := by
  refine ⟨rfl, by decide, by decide⟩

/-- C4 (amended).  Column-role resolution for writes: the time column is
the explicit override when truthy, else the configured timestamp key
when truthy, else the literal `"time"`; tag columns are the explicit
list when non-empty, else the configured key-column list; field columns
are the explicit list when given *and non-empty* (an explicit empty list
is treated as absent under Python truthiness), else every dataframe
column outside `{time column} ∪ tag columns`, and an empty inference
collapses to the absent marker `none` so no fields are emitted.  In the
`write_df` entry point the inference runs only when the list is `None`.
-/
theorem column_role_resolution (t : StoreyCfg) (columns : List String)
    (l : List String) (tc : String) (tags : List String) :
    (truthy t.time_col → resolve_time_column t = t.time_col.getD "") ∧
    (¬ truthy t.time_col → truthy t.timestamp_key →
      resolve_time_column t = t.timestamp_key.getD "") ∧
    (¬ truthy t.time_col → ¬ truthy t.timestamp_key →
      resolve_time_column t = "time") ∧
    (t.tag_cols ≠ [] → resolve_tag_columns t = t.tag_cols) ∧
    (t.tag_cols = [] → resolve_tag_columns t = t.key_columns) ∧
    (t.field_cols = some l → l ≠ [] →
      resolve_field_columns t columns tc tags = some l) ∧
    ((t.field_cols = none ∨ t.field_cols = some []) →
      resolve_field_columns t columns tc tags =
        (if columns.filter (fun c => ¬ (c = tc ∨ tags.contains c)) = [] then none
         else some (columns.filter fun c => ¬ (c = tc ∨ tags.contains c)))) ∧
    write_df_field_cols columns tc (some tags) none =
      columns.filter (fun c => ¬ (tc :: tags).contains c) ∧
    write_df_field_cols columns tc (some tags) (some l) = l := by
  refine ⟨?_, ?_, ?_, ?_, ?_, ?_, ?_, rfl, rfl⟩
  · intro h
    unfold resolve_time_column pyOrS
    rw [if_pos h]
  · intro h1 h2
    unfold resolve_time_column pyOrS
    rw [if_neg h1, if_pos h2]
  · intro h1 h2
    unfold resolve_time_column pyOrS
    rw [if_neg h1, if_neg h2]
  · intro h
    unfold resolve_tag_columns
    rw [if_pos h]
  · intro h
    unfold resolve_tag_columns
    rw [if_neg (by simp [h])]
  · intro hfc hl
    unfold resolve_field_columns
    rw [hfc]
    simp only [hl, if_true]
    rw [if_pos hl]
  · intro hfc
    cases hfc with
    | inl h => unfold resolve_field_columns; rw [h]
    | inr h =>
      unfold resolve_field_columns
      rw [h]
      simp

/-- Witness for C4 (amended), at the spec's own example: columns
`time, sensor, value`, tags `[sensor]`, no explicit field list — the
time column is `"time"`, the tags resolve to `["sensor"]` and the
inferred field columns are `["value"]`. -/
theorem column_role_resolution_witness :
    resolve_time_column ⟨none, [], none, ["sensor"], none⟩ = "time" ∧
    resolve_tag_columns ⟨none, [], none, ["sensor"], none⟩ = ["sensor"] ∧
    resolve_field_columns ⟨none, [], none, ["sensor"], none⟩
      ["time", "sensor", "value"] "time" ["sensor"] = some ["value"] ∧
    write_df_field_cols ["time", "sensor", "value"] "time" (some ["sensor"]) none =
      ["value"] := by
  have h := column_role_resolution ⟨none, [], none, ["sensor"], none⟩
    ["time", "sensor", "value"] [] "time" ["sensor"]
  refine ⟨h.2.2.1 (by decide) (by decide), h.2.2.2.1 (by decide), ?_, ?_⟩
  · have h7 := h.2.2.2.2.2.2.1 (Or.inl rfl)
    rw [h7]
    decide
  · have h8 := h.2.2.2.2.2.2.2.1
    rw [h8]
    decide

/-! ## C5: batch buffer flush contract -/

/-- One call strictly below the size threshold and inside the flush
interval does not flush: it only appends the event. -/
theorem batchCall_no_flush {α : Type} (cfg : BatchCfg) (w : Bool)
    (now : Int) (e : α) (s : BatchState α)
    (h1 : s.batch_events.length + 1 < cfg.batch_size)
    (h2 : now - s.last_flush_time < cfg.flush_interval) :
    batchCall cfg w now e s =
      (⟨s.batch_events ++ [e], s.last_flush_time⟩, [], e) := by
  have hc : ¬ (cfg.batch_size ≤ (s.batch_events ++ [e]).length ∨
      cfg.flush_interval ≤ now - s.last_flush_time) := by
    push_neg
    refine ⟨?_, by omega⟩
    rw [List.length_append, List.length_singleton]
    omega
  unfold batchCall
  dsimp only
  rw [if_neg hc]

/-- A run of calls that stays strictly below the size threshold and
inside the flush interval never flushes: it only accumulates the events
in order, leaving the last flush time untouched. -/
theorem runCalls_no_flush {α : Type} (cfg : BatchCfg) (w : Bool)
    (steps : List (Int × α)) :
    ∀ s : BatchState α,
      s.batch_events.length + steps.length < cfg.batch_size →
      (∀ te ∈ steps, te.1 - s.last_flush_time < cfg.flush_interval) →
      runCalls cfg w steps s =
        (⟨s.batch_events ++ steps.map Prod.snd, s.last_flush_time⟩, []) := by
  induction steps with
  | nil =>
    intro s _ _
    simp [runCalls]
  | cons te rest ih =>
    intro s hlen htimes
    obtain ⟨t, e⟩ := te
    have h1 : s.batch_events.length + 1 < cfg.batch_size := by
      simp only [List.length_cons] at hlen
      omega
    have h2 : t - s.last_flush_time < cfg.flush_interval :=
      htimes (t, e) (List.mem_cons_self _ _)
    unfold runCalls
    rw [batchCall_no_flush cfg w t e s h1 h2]
    dsimp only
    have ihs := ih ⟨s.batch_events ++ [e], s.last_flush_time⟩
      (by dsimp only
          simp only [List.length_append, List.length_singleton, List.length_cons,
            List.length_nil] at hlen ⊢
          omega)
      (fun te' hte' => htimes te' (List.mem_cons_of_mem _ hte'))
    rw [ihs]
    simp

/-- C5.  Batch buffer flush contract: starting from an empty buffer,
appending `batch_size - 1` events whose timestamps stay inside the flush
interval triggers no flush and leaves them all buffered in order; the
`batch_size`-th append triggers exactly one flush call carrying all
accumulated events; and immediately after that flush — whether the
backend write succeeded or failed (`w` is the write oracle) — the buffer
is empty, as after any `_flush_batch` whatsoever (a failed write's rows
are dropped, never retried). -/
theorem batch_buffer_flush_contract {α : Type} (cfg : BatchCfg) (w : Bool)
    (t0 tn : Int) (pre : List (Int × α)) (en : α)
    (hsize : pre.length + 1 = cfg.batch_size)
    (htimes : ∀ te ∈ pre, te.1 - t0 < cfg.flush_interval) :
    runCalls cfg w pre ⟨[], t0⟩ = (⟨pre.map Prod.snd, t0⟩, []) ∧
    (batchCall cfg w tn en ⟨pre.map Prod.snd, t0⟩).2.1 =
      [pre.map Prod.snd ++ [en]] ∧
    (batchCall cfg w tn en ⟨pre.map Prod.snd, t0⟩).1.batch_events = [] ∧
    (∀ (w' : Bool) (now : Int) (s : BatchState α),
      ((flush_batch w' now s).1).batch_events = []) := by
  have hfull : cfg.batch_size ≤ (pre.map Prod.snd ++ [en]).length := by
    rw [List.length_append, List.length_map]
    simp only [List.length_cons, List.length_nil]
    omega
  have hne : ((pre.map Prod.snd ++ [en]).isEmpty) = false := by
    cases h : pre.map Prod.snd ++ [en] with
    | nil => exact absurd h (by simp)
    | cons a l => rfl
  refine ⟨?_, ?_, ?_, ?_⟩
  · have h := runCalls_no_flush cfg w pre ⟨[], t0⟩ (by simp; omega)
      (by simpa using htimes)
    simpa using h
  · unfold batchCall
    rw [if_pos (Or.inl hfull)]
    show (flush_batch w tn ⟨pre.map Prod.snd ++ [en], t0⟩).2.1 =
      [pre.map Prod.snd ++ [en]]
    unfold flush_batch
    simp only [hne, Bool.false_eq_true, if_false]
    cases w <;> rfl
  · unfold batchCall
    rw [if_pos (Or.inl hfull)]
    show (flush_batch w tn ⟨pre.map Prod.snd ++ [en], t0⟩).1.batch_events = []
    unfold flush_batch
    simp only [hne, Bool.false_eq_true, if_false]
    cases w <;> rfl
  · intro w' now s
    unfold flush_batch
    by_cases h : s.batch_events.isEmpty
    · rw [if_pos h]
      simpa using h
    · rw [if_neg h]
      cases w' <;> rfl

/-- Witness for C5 with `batch_size = 3`, `flush_interval = 100` and a
failing backend write: two appends at times 1 and 2 buffer without
flushing; the third append flushes exactly the payload `[10, 20, 30]`
and — although the write fails — leaves the buffer empty. -/
theorem batch_buffer_flush_contract_witness :
    runCalls ⟨3, 100⟩ false [(1, 10), (2, 20)] (⟨[], 0⟩ : BatchState Nat) =
      (⟨[10, 20], 0⟩, []) ∧
    (batchCall ⟨3, 100⟩ false 3 30 (⟨[10, 20], 0⟩ : BatchState Nat)).2.1 =
      [[10, 20, 30]] ∧
    (batchCall ⟨3, 100⟩ false 3 30 (⟨[10, 20], 0⟩ : BatchState Nat)).1.batch_events =
      [] := by
  have h := batch_buffer_flush_contract (α := Nat) ⟨3, 100⟩ false 0 3
    [(1, 10), (2, 20)] 30 (by decide) (by decide)
  exact ⟨h.1, h.2.1, h.2.2.1⟩

/-! ## C6: streaming error swallowing -/

/-- C6.  Streaming error swallowing: whatever the backend write does,
the storey per-event handler returns the event unmodified (errors are
caught and logged, never propagated); the batch handler likewise returns
the event in every path; and the teardown-time flush of `__del__`
swallows flush errors and always leaves the buffer empty. -/
theorem streaming_error_swallowing {α : Type}
    (write : DataFrame → Except String Unit) (ev : StoreyEvent)
    (cfg : BatchCfg) (w : Bool) (now : Int) (e : α) (s : BatchState α) :
    influxStoreyCall write ev = ev ∧
    (batchCall cfg w now e s).2.2 = e ∧
    (batchDel w now s).batch_events = [] := by
  refine ⟨?_, ?_, ?_⟩
  · unfold influxStoreyCall
    cases eventToDf ev with
    | none => rfl
    | some df =>
      dsimp only
      by_cases hdf : df.rows.isEmpty
      · rw [if_pos hdf]
      · rw [if_neg hdf]
        cases write df <;> rfl
  · unfold batchCall
    dsimp only
    split <;> rfl
  · unfold batchDel flush_batch
    by_cases h : s.batch_events.isEmpty
    · rw [if_pos h]
      simpa using h
    · rw [if_neg h]
      cases w <;> rfl

/-! ## C7: MissingCredentials reporting -/

/-- Whether a resolution raised. -/
def exceptIsError : Except String ConnConfig → Bool
  | Except.error _ => true
  | Except.ok _ => false

/-- Concrete parsed key for C7/C8 scenarios: `b/m` with no query. -/
def bareKey : ParsedKey where
  bucket := "b"
  measurement := "m"
  field_filter := none
  tag_filters := []
  env := "DEV"
  range_window := "-1h"
  url_override := none
  org_override := none
  token_inline := none
  token_secret := none

/-- Lookups for the C7 counterexample, variant A: org set via the
environment variable, token set via the secret store, url unset. -/
def c7EnvA : Env where
  osenv := fun k => if k = "INFLUX_DEV_ORG" then some "o" else none
  secrets := fun k => if k = "INFLUX_DEV_TOKEN" then some "tk" else none

/-- Lookups for the C7 counterexample, variant B: org set, url unset and
token unset. -/
def c7EnvB : Env where
  osenv := fun k => if k = "INFLUX_DEV_ORG" then some "o" else none
  secrets := fun _ => none

/-- Counterexample to C7 as stated: resolving `b/m` under variant A
(only the url unset) and under variant B (url and token both unset)
raises the *identical* error message, so the message cannot name which
of the three fields are unset — it never indicates whether the token is
among them. -/
theorem missing_credentials_message_counterexample :
    resolveConfig bareKey c7EnvA none =
      Except.error (getErrMsg "DEV" none (some "o")) ∧
    resolveConfig bareKey c7EnvB none =
      Except.error (getErrMsg "DEV" none (some "o")) ∧
    truthy (resolveToken "DEV" none none c7EnvA none) = true ∧
    truthy (resolveToken "DEV" none none c7EnvB none) = false := by
  refine ⟨by rfl, by rfl, by rfl, by rfl⟩

/-- C7 (amended).  Credential resolution in `InfluxStore.get` raises
exactly when any of url, org or token resolves to a falsy value; the
raised message is `getErrMsg`, which names the environment and embeds
the resolved url and org values (`None` when unset) — but it does not
indicate whether the token is among the unset fields.  The `write_df`
resolution raises under the same condition with a message naming only
the environment. -/
theorem missing_credentials_reporting (p : ParsedKey) (e : Env)
    (ctx : Option Ctx) (env' : String)
    (u o ti ts : Option String) :
    (exceptIsError (resolveConfig p e ctx) = true ↔
      ¬ (truthy (resolveUrl p.env p.url_override e) = true ∧
         truthy (resolveOrg p.env p.org_override e) = true ∧
         truthy (resolveToken p.env p.token_inline p.token_secret e ctx) = true)) ∧
    (exceptIsError (resolveConfig p e ctx) = true →
      resolveConfig p e ctx =
        Except.error (getErrMsg p.env (resolveUrl p.env p.url_override e)
          (resolveOrg p.env p.org_override e))) ∧
    (∀ u' o', getErrMsg p.env u' o' =
      "Missing Influx config (env=" ++ p.env ++
        ("). Need url/org/token via URL or env/secrets: INFLUX_" ++ p.env ++
          ("_URL : " ++ pyStrOpt u' ++
            (", INFLUX_" ++ p.env ++
              ("_ORG : " ++ pyStrOpt o' ++
                (" and INFLUX_" ++ p.env ++ "_TOKEN")))))) ∧
    (exceptIsError (write_df_resolve env' u o ti ts e) = true ↔
      ¬ (truthy (resolveUrl env' u e) = true ∧
         truthy (resolveOrg env' o e) = true ∧
         truthy (write_df_token env' ti ts e) = true)) ∧
    (exceptIsError (write_df_resolve env' u o ti ts e) = true →
      write_df_resolve env' u o ti ts e =
        Except.error ("Missing Influx config for env=" ++ env' ++
          " (url/org/token).")) := by
  refine ⟨?_, ?_, ?_, ?_, ?_⟩
  · unfold resolveConfig
    dsimp only
    by_cases h : ¬ truthy (resolveUrl p.env p.url_override e) = true ∨
        ¬ truthy (resolveOrg p.env p.org_override e) = true ∨
        ¬ truthy (resolveToken p.env p.token_inline p.token_secret e ctx) = true
    · rw [if_pos h]
      simp only [exceptIsError, true_iff]
      tauto
    · rw [if_neg h]
      simp only [exceptIsError, false_iff]
      tauto
  · intro h
    unfold resolveConfig at h ⊢
    dsimp only at h ⊢
    split at h
    · rename_i hcond
      rw [if_pos hcond]
    · simp [exceptIsError] at h
  · intro u' o'
    unfold getErrMsg
    simp [String.append_assoc]
  · unfold write_df_resolve
    dsimp only
    by_cases h : truthy (resolveUrl env' u e) = true ∧
        truthy (resolveOrg env' o e) = true ∧
        truthy (write_df_token env' ti ts e) = true
    · rw [if_pos h]
      simp only [exceptIsError, false_iff]
      tauto
    · rw [if_neg h]
      simp only [exceptIsError, true_iff]
      tauto
  · intro h
    unfold write_df_resolve at h ⊢
    dsimp only at h ⊢
    split at h
    · simp [exceptIsError] at h
    · rename_i hcond
      rw [if_neg hcond]

/-- Witness for C7 (amended) at variant B of the counterexample
environment: resolution raises and the message is the `getErrMsg`
rendering naming `DEV` and showing the resolved url (`None`) and org
(`o`). -/
theorem missing_credentials_reporting_witness :
    resolveConfig bareKey c7EnvB none =
      Except.error ("Missing Influx config (env=DEV). " ++
        "Need url/org/token via URL or env/secrets: " ++
        "INFLUX_DEV_URL : None, INFLUX_DEV_ORG : o and INFLUX_DEV_TOKEN") := by
  have h := missing_credentials_reporting bareKey c7EnvB none "DEV" none none none none
  have h2 := h.2.1 (by rfl)
  rw [h2]
  rfl

/-! ## C8: malformed URI rejection -/

/-- Whether key parsing raised. -/
def parseFailed : Except String ParsedKey → Bool
  | Except.error _ => true
  | Except.ok _ => false

/-- Counterexample to C8 as stated: bucket and measurement are *not*
required to be non-empty — `"/m"` parses with an empty bucket and
`"b/"` parses with an empty measurement, with no error raised. -/
theorem malformed_uri_nonempty_counterexample :
    parseKey "/m" =
      Except.ok ⟨"", "m", none, [], "DEV", "-1h", none, none, none, none⟩ ∧
    parseKey "b/" =
      Except.ok ⟨"b", "", none, [], "DEV", "-1h", none, none, none, none⟩ := by
  exact ⟨rfl, rfl⟩

/-- C8 (amended).  Malformed URI rejection: parsing a key fails exactly
when the path portion before the first `?` lacks a `/` separator, and
then with the `Invalid key` message naming the key; bucket and
measurement are whatever splitting the path at the first `/` yields, and
may be empty — no non-emptiness check is performed. -/
theorem malformed_uri_rejection (key : String) :
    (parseFailed (parseKey key) = true ↔
      strContains (pySplit1 '?' key).1 '/' = false) ∧
    (strContains (pySplit1 '?' key).1 '/' = false →
      parseKey key =
        Except.error ("Invalid key: " ++ key ++
          ". Expected format 'bucket/measurement'")) := by
  constructor
  · unfold parseKey
    dsimp only
    by_cases h : strContains (pySplit1 '?' key).1 '/' = true
    · rw [if_neg (by simp [h])]
      simp [parseFailed, h]
    · rw [if_pos (by simpa using h)]
      simp [parseFailed, Bool.eq_false_iff, h]
  · intro h
    unfold parseKey
    dsimp only
    rw [if_pos (by simp [h])]

/-- Witness for C8 (amended): the slash-less key `nom` is rejected with
the exact `Invalid key` message. -/
theorem malformed_uri_rejection_witness :
    parseKey "nom" =
      Except.error "Invalid key: nom. Expected format 'bucket/measurement'" := by
  have h := (malformed_uri_rejection "nom").2 (by rfl)
  rw [h]
  rfl

/-! ## C9: result materialization -/

/-- The row-appending inner loop is plain accumulation: folding
`acc ++ [recordToRow r]` over a table appends the mapped table. -/
theorem foldl_append_map (table : List FluxRecord) :
    ∀ acc : List ResultRow,
      table.foldl (fun acc2 r => acc2 ++ [recordToRow r]) acc =
        acc ++ table.map recordToRow := by
  induction table with
  | nil => intro acc; simp
  | cons r t ih =>
    intro acc
    simp only [List.foldl_cons, List.map_cons]
    rw [ih (acc ++ [recordToRow r])]
    simp

/-- Closed form of the nested materialization loop: one output row per
record, in iteration order. -/
theorem materializeRecords_eq (tables : List (List FluxRecord)) :
    materializeRecords tables = tables.flatten.map recordToRow := by
  suffices h : ∀ acc : List ResultRow,
      tables.foldl (fun acc table =>
        table.foldl (fun acc2 record => acc2 ++ [recordToRow record]) acc) acc =
      acc ++ tables.flatten.map recordToRow by
    simpa [materializeRecords] using h []
  induction tables with
  | nil => intro acc; simp
  | cons t ts ih =>
    intro acc
    simp only [List.foldl_cons]
    rw [foldl_append_map t acc, ih (acc ++ t.map recordToRow)]
    simp

/-- C9.  Result materialization: every record yields exactly one output
row (rows are the records of all tables in iteration order, and the row
count is the sum of the table sizes); a row's tags are the record's
attributes minus the four reserved names (possibly empty); and empty
input still yields a table with exactly the five fixed columns and zero
rows, never an absent table. -/
theorem result_materialization_shape (tables : List (List FluxRecord))
    (r : FluxRecord) :
    materialize tables =
      ⟨["time", "field", "value", "measurement", "tags"],
        tables.flatten.map recordToRow⟩ ∧
    (materialize tables).rows.length = (tables.map List.length).sum ∧
    (recordToRow r).tags =
      r.values.filter (fun kv => ¬ reservedNames.contains kv.1) ∧
    materialize [] = ⟨["time", "field", "value", "measurement", "tags"], []⟩ := by
  refine ⟨?_, ?_, rfl, rfl⟩
  · unfold materialize
    rw [materializeRecords_eq]
  · show (materializeRecords tables).length = _
    rw [materializeRecords_eq, List.length_map, List.length_flatten]
